import Mathlib

/-!
Verification of the core decision logic of the krita-work-timer repository:
the cognitive profile (bucketed statistics, pause classification, confidence
and trust scoring) from `cognitive_profile.py`, and the timer state machine
from `timer_manager.py`.  Python integers become `Nat`/`Int`, Python floats
become `ℚ` (or `ℝ` where a square root is involved), dictionaries become
association lists, and the mutating methods become pure state-transformer
functions.
-/

namespace KritaWorkTimer

/-- `PausePattern` enum from `cognitive_profile.py`. -/
inductive PausePattern where
  | MICRO_THINKING
  | PLANNING_PAUSE
  | CONTEXT_SWITCH
  | BREAK
  | UNKNOWN
deriving DecidableEq, Repr

/-- `ConfidenceDecision` enum from `cognitive_profile.py`. -/
inductive ConfidenceDecision where
  | AUTO_ACCEPT
  | AUTO_DISCARD
  | ASK_USER
deriving DecidableEq, Repr

/-- `IdleBucket` dataclass: statistics for one idle-duration bucket.
Counts are `Nat`: they start at 0 and every operation keeps them
non-negative (Python uses unbounded ints). -/
structure IdleBucket where
  min_seconds : Nat
  max_seconds : Nat
  total_count : Nat := 0
  validated_count : Nat := 0
deriving DecidableEq, Repr

/-- `IdleBucket.validation_rate`: `validated/total`, defaulting to 1/2 on an
empty bucket. -/
def IdleBucket.validation_rate (b : IdleBucket) : ℚ :=
  if b.total_count = 0 then 1/2
  else (b.validated_count : ℚ) / (b.total_count : ℚ)

/-- `CognitiveProfile.BUCKET_RANGES`: the five fixed idle ranges in seconds. -/
def BUCKET_RANGES : List (Nat × Nat) :=
  [(0, 180), (180, 420), (420, 900), (900, 1500), (1500, 3600)]

/-- The loop body of `CognitiveProfile._bucket_key`: scan the ranges in
order and return the first `(lo, hi)` with `lo ≤ s < hi`. -/
def findBucketRange (s : Nat) : List (Nat × Nat) → Option (Nat × Nat)
  | [] => none
  | r :: rs => if r.1 ≤ s ∧ s < r.2 then some r else findBucketRange s rs

/-- `CognitiveProfile._bucket_key`: first range `(lo, hi)` with
`lo ≤ seconds < hi`, falling back to the last range.  The Python method
returns the string key `f"{lo}-{hi}"`; ranges and keys are in bijection, so
the range pair stands for the key. -/
def bucket_key (seconds : Nat) : Nat × Nat :=
  (findBucketRange seconds BUCKET_RANGES).getD (BUCKET_RANGES.getLastD (0, 0))

/-- Closed form of `bucket_key` by interval case analysis. -/
theorem bucket_key_eq (d : Nat) :
    bucket_key d =
      if d < 180 then (0, 180)
      else if d < 420 then (180, 420)
      else if d < 900 then (420, 900)
      else if d < 1500 then (900, 1500)
      else (1500, 3600) := by
  simp only [bucket_key, findBucketRange, BUCKET_RANGES, List.getLastD]
  split_ifs <;> simp_all

/-- C4: for every idle duration `d ≥ 0`, bucket lookup returns exactly one of
the five fixed ranges; it returns the unique range containing `d` when
`d < 3600`, durations `≥ 3600` map to the last bucket, and the ranges are
pairwise non-overlapping while their union together with the open-ended last
bucket covers `[0, ∞)`. -/
theorem bucket_lookup_exhaustive_disjoint (d : Nat) :
    bucket_key d ∈ BUCKET_RANGES ∧
    (∀ r ∈ BUCKET_RANGES, r.1 ≤ d ∧ d < r.2 → bucket_key d = r) ∧
    (3600 ≤ d → bucket_key d = (1500, 3600)) ∧
    (d < 3600 → ∃ r ∈ BUCKET_RANGES, r.1 ≤ d ∧ d < r.2) ∧
    (∀ r ∈ BUCKET_RANGES, ∀ s ∈ BUCKET_RANGES,
      (r.1 ≤ d ∧ d < r.2) → (s.1 ≤ d ∧ d < s.2) → r = s) := by
  refine ⟨?_, ?_, ?_, ?_, ?_⟩
  · rw [bucket_key_eq]; split_ifs <;> decide
  · intro r hr h
    rw [bucket_key_eq]
    fin_cases hr <;> split_ifs <;> first | rfl | omega
  · intro h3600
    rw [bucket_key_eq]
    split_ifs <;> first | rfl | omega
  · intro hlt
    rcases (by omega : d < 180 ∨ 180 ≤ d ∧ d < 420 ∨ 420 ≤ d ∧ d < 900 ∨
        900 ≤ d ∧ d < 1500 ∨ 1500 ≤ d ∧ d < 3600) with h | h | h | h | h
    · exact ⟨(0, 180), by decide, by omega⟩
    · exact ⟨(180, 420), by decide, by omega⟩
    · exact ⟨(420, 900), by decide, by omega⟩
    · exact ⟨(900, 1500), by decide, by omega⟩
    · exact ⟨(1500, 3600), by decide, by omega⟩
  · intro r hr s hs h1 h2
    fin_cases hr <;> fin_cases hs <;> first | rfl | omega

/-- C4 witness: evaluation at `d = 500`. -/
theorem bucket_lookup_exhaustive_disjoint_witness :
    bucket_key 500 = (420, 900) ∧ (420, 900) ∈ BUCKET_RANGES :=
  ⟨((bucket_lookup_exhaustive_disjoint 500).2.1 (420, 900) (by decide)
      (by decide)),
    by decide⟩

/-- `ActivityBurst` dataclass. -/
structure ActivityBurst where
  timestamp : ℚ
  duration_seconds : ℚ
  intensity : ℚ
  event_count : Nat
deriving DecidableEq, Repr

/-- `PauseEvent` dataclass.  `session_age_minutes` is Python
`int((now - start)/60)`; truncation toward zero coincides with `Rat.floor`
on the non-negative ages that occur. -/
structure PauseEvent where
  timestamp : ℚ
  duration_seconds : Nat
  was_validated : Bool
  pattern : PausePattern
  pre_pause_intensity : ℚ
  session_age_minutes : Int
  hour_of_day : Nat
  project_hash : Option String := none
deriving DecidableEq, Repr

/-- `ProjectModifier` dataclass. -/
structure ProjectModifier where
  file_hash : String
  last_filename : String := ""
  total_validations : Nat := 0
  total_rejections : Nat := 0
  avg_validated_idle : ℚ := 300
  session_count : Nat := 0
  total_work_time : Nat := 0
deriving DecidableEq, Repr

/-- `ProjectModifier.validation_rate`. -/
def ProjectModifier.validation_rate (m : ProjectModifier) : ℚ :=
  let total := m.total_validations + m.total_rejections
  if total = 0 then 1/2
  else (m.total_validations : ℚ) / (total : ℚ)

/-- `ProjectModifier.project_phase`. -/
def ProjectModifier.project_phase (m : ProjectModifier) : String :=
  let hours : ℚ := (m.total_work_time : ℚ) / 3600
  if hours < 2 then "early"
  else if hours < 10 then "mid"
  else "late"

/-- `CognitiveProfile.DECAY_FACTOR`. -/
def DECAY_FACTOR : ℚ := 95/100

/-- The mutable state of a `CognitiveProfile` instance.  Buckets are kept in
`BUCKET_RANGES` order (the Python dict preserves insertion order); the dict
of project modifiers becomes an association list.  Fields never read by the
operations verified here (activity-window bookkeeping, notification
timestamps, the pending-undo slot of the profile) are omitted. -/
structure CognitiveProfile where
  buckets : List IdleBucket
  recent_pauses : List PauseEvent := []
  activity_bursts : List ActivityBurst := []
  session_start_time : ℚ := 0
  consecutive_validated : Nat := 0
  consecutive_rejected : Nat := 0
  project_modifiers : List (String × ProjectModifier) := []
  total_validations : Nat := 0
  total_rejections : Nat := 0
  longest_validated_streak : Nat := 0
  current_streak : Nat := 0
  focus_lost_count : ℚ := 0
  repeated_rejection_patterns : List (Nat × ℚ) := []
  user_bias : ℚ := 0
  implicit_trust_enabled : Bool := false

/-- `CognitiveProfile.__init__` together with `_init_buckets`. -/
def profileInit : CognitiveProfile :=
  { buckets := BUCKET_RANGES.map (fun r => { min_seconds := r.1, max_seconds := r.2 }) }

/-- Python's `l[-n:]`: the last `n` elements of a list. -/
def lastN (n : Nat) (l : List α) : List α := l.drop (l.length - n)

/-- The generator sum inside `classify_pause`: how many of the last 5
recorded pauses were rejected with duration `< 300` seconds. -/
def recentShortRejections (p : CognitiveProfile) : Nat :=
  (lastN 5 p.recent_pauses).countP
    (fun e => !e.was_validated && decide (e.duration_seconds < 300))

/-- `CognitiveProfile.classify_pause`. -/
def classify_pause (p : CognitiveProfile) (duration_seconds : Nat)
    (pre_intensity : ℚ) : PausePattern :=
  let minutes : ℚ := (duration_seconds : ℚ) / 60
  if minutes ≤ 3 ∧ pre_intensity > 1/2 then .MICRO_THINKING
  else if 5 ≤ minutes ∧ minutes ≤ 12 then .PLANNING_PAUSE
  else if recentShortRejections p ≥ 2 ∧ minutes < 10 then .CONTEXT_SWITCH
  else if minutes > 15 then .BREAK
  else .UNKNOWN

/-- C6: `classify_pause` checks its rules in order and returns the first
match — MICRO_THINKING on `d/60 ≤ 3 ∧ i > 1/2`, else PLANNING_PAUSE on
`5 ≤ d/60 ≤ 12`, else CONTEXT_SWITCH when at least 2 of the last 5
recorded pauses were rejected with duration < 300 s and `d/60 < 10`, else
BREAK on `d/60 > 15`, else UNKNOWN; in particular `d = 90`, `i = 0.8`
with empty history gives MICRO_THINKING and `d = 600` gives
PLANNING_PAUSE. -/
theorem classify_pause_ordered_rules (p : CognitiveProfile) (d : Nat) (i : ℚ) :
    ((d : ℚ)/60 ≤ 3 ∧ 1/2 < i → classify_pause p d i = .MICRO_THINKING) ∧
    (¬((d : ℚ)/60 ≤ 3 ∧ 1/2 < i) → 5 ≤ (d : ℚ)/60 ∧ (d : ℚ)/60 ≤ 12 →
      classify_pause p d i = .PLANNING_PAUSE) ∧
    (¬((d : ℚ)/60 ≤ 3 ∧ 1/2 < i) → ¬(5 ≤ (d : ℚ)/60 ∧ (d : ℚ)/60 ≤ 12) →
      2 ≤ recentShortRejections p ∧ (d : ℚ)/60 < 10 →
      classify_pause p d i = .CONTEXT_SWITCH) ∧
    (¬((d : ℚ)/60 ≤ 3 ∧ 1/2 < i) → ¬(5 ≤ (d : ℚ)/60 ∧ (d : ℚ)/60 ≤ 12) →
      ¬(2 ≤ recentShortRejections p ∧ (d : ℚ)/60 < 10) → 15 < (d : ℚ)/60 →
      classify_pause p d i = .BREAK) ∧
    (¬((d : ℚ)/60 ≤ 3 ∧ 1/2 < i) → ¬(5 ≤ (d : ℚ)/60 ∧ (d : ℚ)/60 ≤ 12) →
      ¬(2 ≤ recentShortRejections p ∧ (d : ℚ)/60 < 10) → ¬(15 < (d : ℚ)/60) →
      classify_pause p d i = .UNKNOWN) ∧
    (∀ q : CognitiveProfile, q.recent_pauses = [] →
      classify_pause q 90 (4/5) = .MICRO_THINKING) ∧
    (∀ q : CognitiveProfile, ∀ j : ℚ, classify_pause q 600 j = .PLANNING_PAUSE) := by
  refine ⟨?_, ?_, ?_, ?_, ?_, ?_, ?_⟩
  · intro h
    simp only [classify_pause]
    rw [if_pos h]
  · intro h1 h2
    simp only [classify_pause]
    rw [if_neg (by tauto), if_pos (by tauto)]
  · intro h1 h2 h3
    simp only [classify_pause]
    rw [if_neg (by tauto), if_neg (by tauto), if_pos (by tauto)]
  · intro h1 h2 h3 h4
    simp only [classify_pause]
    rw [if_neg (by tauto), if_neg (by tauto), if_neg (by tauto), if_pos (by tauto)]
  · intro h1 h2 h3 h4
    simp only [classify_pause]
    rw [if_neg (by tauto), if_neg (by tauto), if_neg (by tauto), if_neg (by tauto)]
  · intro q hq
    simp [classify_pause]
    norm_num
  · intro q j
    simp only [classify_pause]
    rw [if_neg (by norm_num), if_pos (by norm_num)]

/-- C6 witness: the theorem applied at the empty profile with `d = 90`,
`i = 4/5`. -/
theorem classify_pause_ordered_rules_witness :
    classify_pause profileInit 90 (4/5) = .MICRO_THINKING :=
  (classify_pause_ordered_rules profileInit 90 (4/5)).1 (by norm_num)

/-- `CognitiveProfile.MIN_SAMPLES_FOR_AUTO`. -/
def MIN_SAMPLES_FOR_AUTO : Nat := 10

/-- `CognitiveProfile.TRUST_LEVEL_HIGH`. -/
def TRUST_LEVEL_HIGH : ℚ := 0.8

/-- `CognitiveProfile._get_bucket`: the stored bucket whose key matches
`_bucket_key(seconds)`, falling back (as `dict.get` does) to the last
stored bucket. -/
def get_bucket (p : CognitiveProfile) (seconds : Nat) : IdleBucket :=
  match p.buckets.find?
      (fun b => (b.min_seconds, b.max_seconds) = bucket_key seconds) with
  | some b => b
  | none => p.buckets.getLastD { min_seconds := 0, max_seconds := 0 }

/-- `CognitiveProfile.get_pre_pause_intensity`: decay-weighted average of
the (up to) 5 most recent activity bursts, most recent weighted
`DECAY_FACTOR^0`, defaulting to 1/2 with no bursts. -/
def get_pre_pause_intensity (p : CognitiveProfile) : ℚ :=
  if p.activity_bursts = [] then 1/2
  else
    let recent := (lastN 5 p.activity_bursts).reverse
    let total_weight := recent.enum.foldl
      (fun acc ib => acc + DECAY_FACTOR ^ ib.1) 0
    let weighted_intensity := recent.enum.foldl
      (fun acc ib => acc + ib.2.intensity * DECAY_FACTOR ^ ib.1) 0
    if total_weight = 0 then 1/2
    else weighted_intensity / total_weight

/-- `IdleBucket.confidence`: Wilson score lower bound at 95% (z = 1.96) on
the validation rate, clamped to `[0,1]`; 0 on an empty bucket. -/
noncomputable def IdleBucket.confidence (b : IdleBucket) : ℝ :=
  if b.total_count = 0 then 0
  else
    let n : ℝ := (b.total_count : ℝ)
    let p : ℝ := ((b.validation_rate : ℚ) : ℝ)
    let z : ℝ := 1.96
    let denominator := 1 + z * z / n
    let centre_adjusted_probability := p + z * z / (2 * n)
    let adjusted_standard_deviation := Real.sqrt ((p * (1 - p) + z * z / (4 * n)) / n)
    let lower_bound := (centre_adjusted_probability - z * adjusted_standard_deviation) / denominator
    max 0 (min 1 lower_bound)

/-- `sum(b.total_count for b in buckets.values())` over a bucket list. -/
def sumTotalCounts (bs : List IdleBucket) : Nat :=
  (bs.map IdleBucket.total_count).sum

/-- `sum(b.total_count for b in self._buckets.values())`. -/
def totalBucketSamples (p : CognitiveProfile) : Nat :=
  sumTotalCounts p.buckets

/-- The unclamped product computed by `calculate_confidence`: base
confidence times the intensity, session, time-of-day, streak, project,
negative-signal and bias factors.  The wall clock `time.time()` and the
local hour `datetime.now().hour` are passed in as `now` and `hour`. -/
noncomputable def rawConfidence (p : CognitiveProfile) (idle_seconds : Nat)
    (project_hash : Option String) (now : ℚ) (hour : Nat) : ℝ :=
  let bucket := get_bucket p idle_seconds
  let base_rate : ℝ := ((bucket.validation_rate : ℚ) : ℝ)
  let bucket_confidence : ℝ := bucket.confidence
  let pre_intensity : ℚ := get_pre_pause_intensity p
  let intensity_factor : ℝ := 0.5 + ((pre_intensity : ℝ) * 0.3)
  let session_age : ℚ :=
    if p.session_start_time > 0 then (now - p.session_start_time) / 60 else 0
  let session_factor : ℝ :=
    if session_age < 30 then 1.0 else if session_age < 60 then 0.9 else 0.8
  let time_factor : ℝ :=
    if (9 ≤ hour ∧ hour ≤ 11) ∨ (14 ≤ hour ∧ hour ≤ 17) then 1.05
    else if hour < 7 ∨ hour > 22 then 0.9
    else 1.0
  let streak_factor : ℝ :=
    if p.consecutive_validated ≥ 3 then 1.1
    else if p.consecutive_rejected ≥ 3 then 0.85
    else 1.0
  let project_factor : ℝ :=
    match project_hash with
    | none => 1.0
    | some h =>
      match p.project_modifiers.lookup h with
      | none => 1.0
      | some m =>
        let pf : ℝ := 0.7 + (((m.validation_rate : ℚ) : ℝ) * 0.3)
        if m.project_phase = "early" then pf * 1.1
        else if m.project_phase = "late" then pf * 0.95
        else pf
  let negative_adjustment : ℝ :=
    if p.focus_lost_count > 0 then
      1.0 * max 0.7 (1 - (((p.focus_lost_count : ℚ) : ℝ) * 0.05))
    else 1.0
  let bias_adjustment : ℝ := 1.0 + (((p.user_bias : ℚ) : ℝ) * 0.2)
  let base_confidence : ℝ :=
    if bucket_confidence > 0.5 then base_rate
    else
      let global_rate : ℝ := (p.total_validations : ℝ) /
        ((max 1 (p.total_validations + p.total_rejections) : Nat) : ℝ)
      (base_rate * bucket_confidence) + (global_rate * (1 - bucket_confidence))
  base_confidence * intensity_factor * session_factor * time_factor *
    streak_factor * project_factor * negative_adjustment * bias_adjustment

/-- `CognitiveProfile.calculate_confidence`: final clamped confidence and
the ternary decision.  (The Python method additionally returns the
`factors` breakdown dict, a read-only report of the intermediate values
above; it is not used by any caller logic verified here.) -/
noncomputable def calculate_confidence (p : CognitiveProfile) (idle_seconds : Nat)
    (project_hash : Option String) (now : ℚ) (hour : Nat) :
    ℝ × ConfidenceDecision :=
  let final_confidence : ℝ :=
    max 0.0 (min 1.0 (rawConfidence p idle_seconds project_hash now hour))
  let total_samples := totalBucketSamples p
  let decision :=
    if total_samples < MIN_SAMPLES_FOR_AUTO then ConfidenceDecision.ASK_USER
    else if final_confidence ≥ 0.85 then ConfidenceDecision.AUTO_ACCEPT
    else if final_confidence ≤ 0.20 then ConfidenceDecision.AUTO_DISCARD
    else ConfidenceDecision.ASK_USER
  (final_confidence, decision)

/-- C1: the confidence returned by `calculate_confidence` always lies in
`[0,1]`; the decision is ASK_USER whenever the sum of all bucket total
counts is below 10 regardless of everything else, and otherwise it is
AUTO_ACCEPT exactly when confidence ≥ 0.85, AUTO_DISCARD exactly when
confidence ≤ 0.20, and ASK_USER exactly when confidence lies strictly
between the two thresholds. -/
theorem calculate_confidence_clamped_and_decision (p : CognitiveProfile)
    (idle_seconds : Nat) (project_hash : Option String) (now : ℚ) (hour : Nat) :
    (0 ≤ (calculate_confidence p idle_seconds project_hash now hour).1 ∧
      (calculate_confidence p idle_seconds project_hash now hour).1 ≤ 1) ∧
    (totalBucketSamples p < 10 →
      (calculate_confidence p idle_seconds project_hash now hour).2 =
        ConfidenceDecision.ASK_USER) ∧
    (10 ≤ totalBucketSamples p →
      ((calculate_confidence p idle_seconds project_hash now hour).2 =
          ConfidenceDecision.AUTO_ACCEPT ↔
        (0.85 : ℝ) ≤ (calculate_confidence p idle_seconds project_hash now hour).1) ∧
      ((calculate_confidence p idle_seconds project_hash now hour).2 =
          ConfidenceDecision.AUTO_DISCARD ↔
        (calculate_confidence p idle_seconds project_hash now hour).1 ≤ (0.20 : ℝ)) ∧
      ((calculate_confidence p idle_seconds project_hash now hour).2 =
          ConfidenceDecision.ASK_USER ↔
        ((0.20 : ℝ) < (calculate_confidence p idle_seconds project_hash now hour).1 ∧
          (calculate_confidence p idle_seconds project_hash now hour).1 < (0.85 : ℝ)))) := by
  simp only [calculate_confidence, MIN_SAMPLES_FOR_AUTO]
  refine ⟨⟨le_max_of_le_left (by norm_num), ?_⟩, ?_, ?_⟩
  · exact max_le (by norm_num) (le_trans (min_le_left _ _) (by norm_num))
  · intro h
    rw [if_pos h]
  · intro h
    rw [if_neg (by omega)]
    split_ifs with h1 h2
    · exact ⟨⟨fun _ => h1, fun _ => rfl⟩,
        ⟨fun hx => absurd hx (by decide), fun hx => absurd hx (by intro hx2; linarith)⟩,
        ⟨fun hx => absurd hx (by decide), fun hx => absurd hx.2 (by intro hx2; linarith)⟩⟩
    · exact ⟨⟨fun hx => absurd hx (by decide), fun hx => absurd hx h1⟩,
        ⟨fun _ => h2, fun _ => rfl⟩,
        ⟨fun hx => absurd hx (by decide), fun hx => absurd hx.1 (by intro hx2; linarith)⟩⟩
    · exact ⟨⟨fun hx => absurd hx (by decide), fun hx => absurd hx h1⟩,
        ⟨fun hx => absurd hx (by decide), fun hx => absurd hx h2⟩,
        ⟨fun _ => ⟨not_le.mp h2, not_le.mp h1⟩, fun _ => rfl⟩⟩

/-- C1 witness: with the freshly initialized profile (0 samples) the
decision is ASK_USER. -/
theorem calculate_confidence_clamped_and_decision_witness :
    (calculate_confidence profileInit 90 none 0 10).2 =
      ConfidenceDecision.ASK_USER :=
  (calculate_confidence_clamped_and_decision profileInit 90 none 0 10).2.1
    (by decide)

/-- `CognitiveProfile.get_trust_level`. -/
def get_trust_level (p : CognitiveProfile) : ℚ :=
  let total_samples := p.total_validations + p.total_rejections
  if total_samples < MIN_SAMPLES_FOR_AUTO then 0
  else
    let sample_confidence : ℚ := min 1 ((total_samples : ℚ) / 100)
    let consistency : ℚ :=
      if total_samples > 0 then
        |((p.total_validations : ℚ) / (total_samples : ℚ)) - 0.5| * 2
      else 0.5
    let streak_bonus : ℚ := min 0.2 ((p.longest_validated_streak : ℚ) / 50)
    min 1 ((sample_confidence * 0.4) + (consistency * 0.4) + streak_bonus)

/-- `CognitiveProfile.should_use_notification`. -/
def should_use_notification (p : CognitiveProfile) : Bool :=
  if !p.implicit_trust_enabled then false
  else decide (get_trust_level p ≥ TRUST_LEVEL_HIGH)

/-- The trust formula exactly as the specification words it: 0 below 10
samples, else `0.4·min(1, total/100) + 0.4·(|rate−0.5|·2) +
min(0.2, longest_streak/50)` clamped to `[0,1]`. -/
def trustLevelSpec (p : CognitiveProfile) : ℚ :=
  let total := p.total_validations + p.total_rejections
  if total < 10 then 0
  else
    let rate : ℚ := (p.total_validations : ℚ) / (total : ℚ)
    max 0 (min 1
      (0.4 * min 1 ((total : ℚ) / 100) + 0.4 * (|rate - 0.5| * 2) +
        min 0.2 ((p.longest_validated_streak : ℚ) / 50)))

/-- C9: `get_trust_level` equals the specification formula (0 below 10
samples, else the three-term sum clamped to `[0,1]`), its value always
lies in `[0,1]`, and `should_use_notification` is true exactly when the
implicit-trust opt-in is enabled and trust is at least 0.8. -/
theorem get_trust_level_spec (p : CognitiveProfile) :
    get_trust_level p = trustLevelSpec p ∧
    (0 ≤ get_trust_level p ∧ get_trust_level p ≤ 1) ∧
    (should_use_notification p = true ↔
      p.implicit_trust_enabled = true ∧ (0.8 : ℚ) ≤ get_trust_level p) := by
  have hsum : 0 ≤
      (0.4 : ℚ) * min 1 (((p.total_validations + p.total_rejections : Nat) : ℚ) / 100) +
      0.4 * (|((p.total_validations : ℚ) /
        ((p.total_validations + p.total_rejections : Nat) : ℚ)) - 0.5| * 2) +
      min 0.2 ((p.longest_validated_streak : ℚ) / 50) := by
    have h1 : (0:ℚ) ≤ min 1 (((p.total_validations + p.total_rejections : Nat) : ℚ) / 100) :=
      le_min (by norm_num) (by positivity)
    have h2 : (0:ℚ) ≤ |((p.total_validations : ℚ) /
        ((p.total_validations + p.total_rejections : Nat) : ℚ)) - 0.5| * 2 := by positivity
    have h3 : (0:ℚ) ≤ min 0.2 ((p.longest_validated_streak : ℚ) / 50) :=
      le_min (by norm_num) (by positivity)
    have := mul_nonneg (by norm_num : (0:ℚ) ≤ 0.4) h1
    have := mul_nonneg (by norm_num : (0:ℚ) ≤ 0.4) h2
    linarith
  have hbounds : 0 ≤ get_trust_level p ∧ get_trust_level p ≤ 1 := by
    simp only [get_trust_level, MIN_SAMPLES_FOR_AUTO]
    split_ifs with h h2
    · norm_num
    · refine ⟨le_min (by norm_num) ?_, min_le_left _ _⟩
      push_cast at hsum ⊢
      linarith
    · omega
  refine ⟨?_, hbounds, ?_⟩
  · simp only [get_trust_level, trustLevelSpec, MIN_SAMPLES_FOR_AUTO]
    split_ifs with h h2
    · rfl
    · rw [max_eq_right (le_min (by norm_num) (by push_cast at hsum ⊢; linarith))]
      congr 1
      push_cast
      ring
    · omega
  · cases hE : p.implicit_trust_enabled <;>
      simp [should_use_notification, hE, TRUST_LEVEL_HIGH, ge_iff_le]

/-- The in-place increment of `record_validation` on the matched bucket:
`total_count += 1`, plus `validated_count += 1` when validated. -/
def incB (v : Bool) (b : IdleBucket) : IdleBucket :=
  { b with total_count := b.total_count + 1,
           validated_count := if v then b.validated_count + 1 else b.validated_count }

/-- The first two statements of `record_validation`: mutate the bucket
returned by `_get_bucket(idle_seconds)`.  When some stored bucket carries
the key `_bucket_key(idle_seconds)` that bucket is incremented; otherwise
`dict.get`'s fallback mutates the last stored bucket. -/
def bumpBucket (bs : List IdleBucket) (idle_seconds : Nat) (v : Bool) :
    List IdleBucket :=
  if bs.any (fun b => (b.min_seconds, b.max_seconds) = bucket_key idle_seconds) then
    bs.map (fun b =>
      if (b.min_seconds, b.max_seconds) = bucket_key idle_seconds then incB v b else b)
  else
    bs.dropLast ++ (bs.getLast?.map (incB v)).toList

/-- `int(count * DECAY_FACTOR)`: the count multiplied by 0.95 and truncated
to an integer.  Python evaluates the product in binary floating point; for
every count below `2^49` that equals the exact truncation `⌊19·n/20⌋`
modelled here. -/
def decayCount (n : Nat) : Nat := 19 * n / 20

/-- `CognitiveProfile._apply_decay_to_buckets`. -/
def apply_decay_to_buckets (bs : List IdleBucket) : List IdleBucket :=
  let total := sumTotalCounts bs
  if total > 0 ∧ total % 50 = 0 then
    bs.map (fun b =>
      { b with total_count := decayCount b.total_count,
               validated_count := decayCount b.validated_count })
  else bs

/-- `CognitiveProfile._update_project_modifier`. -/
def update_project_modifier (mods : List (String × ProjectModifier))
    (project_hash : String) (idle_seconds : Nat) (was_validated : Bool) :
    List (String × ProjectModifier) :=
  let mods1 :=
    if (mods.lookup project_hash).isNone then
      mods ++ [(project_hash, { file_hash := project_hash })]
    else mods
  mods1.map (fun kv =>
    if kv.1 = project_hash then
      (kv.1,
        if was_validated then
          let tv := kv.2.total_validations + 1
          { kv.2 with
            total_validations := tv,
            avg_validated_idle :=
              (kv.2.avg_validated_idle * ((tv : ℚ) - 1) + (idle_seconds : ℚ)) / (tv : ℚ) }
        else { kv.2 with total_rejections := kv.2.total_rejections + 1 })
    else kv)

/-- `CognitiveProfile.record_validation`.  The wall clock and local hour
are passed in as `now` and `hour`; `self._max_recent_pauses` is its
constant value 100. -/
def record_validation (p : CognitiveProfile) (idle_seconds : Nat)
    (was_validated : Bool) (project_hash : Option String) (now : ℚ)
    (hour : Nat) : CognitiveProfile :=
  let buckets2 := apply_decay_to_buckets (bumpBucket p.buckets idle_seconds was_validated)
  let p1 :=
    if was_validated then
      { p with
        buckets := buckets2,
        total_validations := p.total_validations + 1,
        consecutive_validated := p.consecutive_validated + 1,
        consecutive_rejected := 0,
        current_streak := p.current_streak + 1,
        longest_validated_streak :=
          max p.longest_validated_streak (p.current_streak + 1) }
    else
      { p with
        buckets := buckets2,
        total_rejections := p.total_rejections + 1,
        consecutive_rejected := p.consecutive_rejected + 1,
        consecutive_validated := 0,
        current_streak := 0 }
  let pre_intensity := get_pre_pause_intensity p
  let pattern := classify_pause p idle_seconds pre_intensity
  let session_age : Int :=
    if p.session_start_time > 0 then ⌊(now - p.session_start_time) / 60⌋ else 0
  let event : PauseEvent :=
    { timestamp := now, duration_seconds := idle_seconds,
      was_validated := was_validated, pattern := pattern,
      pre_pause_intensity := pre_intensity, session_age_minutes := session_age,
      hour_of_day := hour, project_hash := project_hash }
  let pauses0 := p.recent_pauses ++ [event]
  let pauses := if pauses0.length > 100 then lastN 100 pauses0 else pauses0
  let mods :=
    match project_hash with
    | some h =>
      if h = "" then p.project_modifiers
      else update_project_modifier p.project_modifiers h idle_seconds was_validated
    | none => p.project_modifiers
  let rejPatterns :=
    if !was_validated then
      let l := p.repeated_rejection_patterns ++ [(idle_seconds, pre_intensity)]
      if l.length > 20 then lastN 20 l else l
    else p.repeated_rejection_patterns
  { p1 with
    recent_pauses := pauses,
    project_modifiers := mods,
    repeated_rejection_patterns := rejPatterns,
    focus_lost_count := max 0 (p.focus_lost_count - 1) }

/-- The bucket store always keeps its keys: the increment happens before
the decay, so the grand total the decay check reads is positive. -/
theorem sumTotalCounts_bump_pos (bs : List IdleBucket) (idle : Nat) (v : Bool)
    (hne : bs ≠ []) : 0 < sumTotalCounts (bumpBucket bs idle v) := by
  unfold bumpBucket
  split_ifs with h
  · obtain ⟨b, hb, hmatch⟩ := List.any_eq_true.mp h
    have hmem : (incB v b).total_count ∈
        ((bs.map (fun b' =>
          if (b'.min_seconds, b'.max_seconds) = bucket_key idle then incB v b' else b')).map
          IdleBucket.total_count) := by
      refine List.mem_map.mpr ⟨incB v b, ?_, rfl⟩
      refine List.mem_map.mpr ⟨b, hb, ?_⟩
      rw [if_pos (of_decide_eq_true hmatch)]
    have := List.single_le_sum (fun x _ => Nat.zero_le x) _ hmem
    have hpos : 0 < (incB v b).total_count := by simp [incB]
    unfold sumTotalCounts
    omega
  · have hlast : bs.getLast? = some (bs.getLast hne) := List.getLast?_eq_getLast bs hne
    unfold sumTotalCounts
    rw [hlast]
    simp [incB]

/-- The bucket store of the profile returned by `record_validation` is the
incremented store with the conditional decay applied; no other statement of
the method touches the buckets. -/
theorem record_validation_buckets (p : CognitiveProfile) (idle_seconds : Nat)
    (was_validated : Bool) (project_hash : Option String) (now : ℚ) (hour : Nat) :
    (record_validation p idle_seconds was_validated project_hash now hour).buckets =
      apply_decay_to_buckets (bumpBucket p.buckets idle_seconds was_validated) := by
  cases was_validated <;> rfl

/-- The increment step never decreases any bucket's `total_count`. -/
theorem bump_monotone (bs : List IdleBucket) (idle : Nat) (v : Bool) :
    List.Forall₂ (fun a b => a.total_count ≤ b.total_count) bs
      (bumpBucket bs idle v) := by
  unfold bumpBucket
  split_ifs with h
  · rw [List.forall₂_map_right_iff]
    refine List.forall₂_same.mpr (fun b _ => ?_)
    split_ifs <;> simp [incB]
  · rcases eq_or_ne bs [] with rfl | hne2
    · simp
    · have key : List.Forall₂ (fun a b => a.total_count ≤ b.total_count)
          (bs.dropLast ++ [bs.getLast hne2])
          (bs.dropLast ++ [incB v (bs.getLast hne2)]) := by
        apply List.rel_append
        · exact List.forall₂_same.mpr fun x _ => le_refl _
        · exact List.forall₂_cons.mpr
            ⟨Nat.le_succ _, List.forall₂_nil_left_iff.mpr rfl⟩
      rw [List.dropLast_append_getLast hne2] at key
      rw [List.getLast?_eq_getLast bs hne2]
      simpa using key

/-- C5: for every call to `record_validation` on a profile whose bucket
store is non-empty (as every initialized profile's is), either the grand
total after the increment is not a multiple of 50 — then the buckets are
exactly the incremented store and no bucket's `total_count` decreases —
or it is a multiple of 50, and then every bucket's total and validated
counts are replaced by their 0.95-decayed integer truncations. -/
theorem record_validation_monotone_and_decay (p : CognitiveProfile)
    (idle_seconds : Nat) (was_validated : Bool) (project_hash : Option String)
    (now : ℚ) (hour : Nat) (hne : p.buckets ≠ []) :
    (sumTotalCounts (bumpBucket p.buckets idle_seconds was_validated) % 50 ≠ 0 →
      (record_validation p idle_seconds was_validated project_hash now hour).buckets =
        bumpBucket p.buckets idle_seconds was_validated ∧
      List.Forall₂ (fun a b => a.total_count ≤ b.total_count) p.buckets
        (record_validation p idle_seconds was_validated project_hash now hour).buckets) ∧
    (sumTotalCounts (bumpBucket p.buckets idle_seconds was_validated) % 50 = 0 →
      (record_validation p idle_seconds was_validated project_hash now hour).buckets =
        (bumpBucket p.buckets idle_seconds was_validated).map (fun b =>
          { b with total_count := decayCount b.total_count,
                   validated_count := decayCount b.validated_count })) := by
  rw [record_validation_buckets]
  constructor
  · intro h50
    have : apply_decay_to_buckets (bumpBucket p.buckets idle_seconds was_validated) =
        bumpBucket p.buckets idle_seconds was_validated := by
      unfold apply_decay_to_buckets
      rw [if_neg (by tauto)]
    rw [this]
    exact ⟨rfl, bump_monotone p.buckets idle_seconds was_validated⟩
  · intro h50
    unfold apply_decay_to_buckets
    rw [if_pos ⟨sumTotalCounts_bump_pos p.buckets idle_seconds was_validated hne, h50⟩]

/-- C5 witness: one validation on the fresh profile (grand total 1, no
decay) gives exactly the incremented store. -/
theorem record_validation_monotone_and_decay_witness :
    (record_validation profileInit 90 true none 0 10).buckets =
      bumpBucket profileInit.buckets 90 true :=
  ((record_validation_monotone_and_decay profileInit 90 true none 0 10
    (by decide)).1 (by decide)).1

/-- The per-bucket invariant of the specification:
`validated_count ≤ total_count` for every stored bucket. -/
def bucketsInv (bs : List IdleBucket) : Prop :=
  ∀ b ∈ bs, b.validated_count ≤ b.total_count

instance bucketsInvDecidable (bs : List IdleBucket) : Decidable (bucketsInv bs) :=
  inferInstanceAs (Decidable (∀ b ∈ bs, b.validated_count ≤ b.total_count))

/-- The increment step preserves the bucket invariant. -/
theorem bump_inv (bs : List IdleBucket) (idle : Nat) (v : Bool)
    (hinv : bucketsInv bs) : bucketsInv (bumpBucket bs idle v) := by
  unfold bumpBucket
  split_ifs with h
  · intro b hb
    obtain ⟨a, ha, rfl⟩ := List.mem_map.mp hb
    have := hinv a ha
    split_ifs <;> cases v <;> simp [incB] <;> omega
  · intro b hb
    rcases List.mem_append.mp hb with hb | hb
    · exact hinv b (List.dropLast_subset bs hb)
    · rcases eq_or_ne bs [] with rfl | hne2
      · simp at hb
      · rw [List.getLast?_eq_getLast bs hne2] at hb
        simp only [Option.map_some', Option.toList_some, List.mem_singleton] at hb
        subst hb
        have := hinv _ (List.getLast_mem hne2)
        cases v <;> simp [incB] <;> omega

/-- Truncated decay is monotone, so it preserves the bucket invariant. -/
theorem decayCount_mono {a b : Nat} (h : a ≤ b) : decayCount a ≤ decayCount b :=
  Nat.div_le_div_right (Nat.mul_le_mul_left 19 h)

/-- The conditional decay step preserves the bucket invariant. -/
theorem apply_decay_inv (bs : List IdleBucket) (hinv : bucketsInv bs) :
    bucketsInv (apply_decay_to_buckets bs) := by
  simp only [apply_decay_to_buckets]
  split_ifs with h
  · intro b hb
    obtain ⟨a, ha, rfl⟩ := List.mem_map.mp hb
    exact decayCount_mono (hinv a ha)
  · exact hinv

/-- One serialized bucket entry as `from_dict` reads it: the dict key plus
the optional `"min"`, `"max"`, `"total"` and `"validated"` fields
(`b_data.get` tolerates missing ones). -/
structure BucketDictEntry where
  key : Nat × Nat
  dmin : Option Nat := none
  dmax : Option Nat := none
  dtotal : Option Nat := none
  dvalidated : Option Nat := none
deriving DecidableEq, Repr

/-- The `"buckets"` part of `CognitiveProfile.to_dict`. -/
def to_dict_buckets (bs : List IdleBucket) : List BucketDictEntry :=
  bs.map (fun b =>
    { key := (b.min_seconds, b.max_seconds),
      dmin := some b.min_seconds, dmax := some b.max_seconds,
      dtotal := some b.total_count, dvalidated := some b.validated_count })

/-- The `"buckets"` loop of `CognitiveProfile.from_dict`: for every entry
whose key matches a stored bucket, overwrite that bucket's counts with the
entry's `total`/`validated` values (default 0). -/
def from_dict_buckets (store : List IdleBucket) (data : List BucketDictEntry) :
    List IdleBucket :=
  data.foldl (fun acc e =>
    if acc.any (fun b => (b.min_seconds, b.max_seconds) = e.key) then
      acc.map (fun b =>
        if (b.min_seconds, b.max_seconds) = e.key then
          { b with total_count := e.dtotal.getD 0,
                   validated_count := e.dvalidated.getD 0 }
        else b)
    else acc) store

/-- Loading preserves the bucket invariant whenever every data entry
itself satisfies `validated ≤ total`. -/
theorem from_dict_buckets_inv (data : List BucketDictEntry) :
    ∀ store : List IdleBucket, bucketsInv store →
    (∀ e ∈ data, e.dvalidated.getD 0 ≤ e.dtotal.getD 0) →
    bucketsInv (from_dict_buckets store data) := by
  induction data with
  | nil => intro store hs _; exact hs
  | cons e rest ih =>
    intro store hs hd
    unfold from_dict_buckets
    simp only [List.foldl_cons]
    have hstep : bucketsInv
        (if store.any (fun b => (b.min_seconds, b.max_seconds) = e.key) then
          store.map (fun b =>
            if (b.min_seconds, b.max_seconds) = e.key then
              { b with total_count := e.dtotal.getD 0,
                       validated_count := e.dvalidated.getD 0 }
            else b)
        else store) := by
      split_ifs with h
      · intro b hb
        obtain ⟨a, ha, rfl⟩ := List.mem_map.mp hb
        split_ifs
        · exact hd e (List.mem_cons_self e rest)
        · exact hs a ha
      · exact hs
    exact ih _ hstep (fun x hx => hd x (List.mem_cons_of_mem e hx))

/-- C8: the invariant `validated_count ≤ total_count` holds on the freshly
initialized all-zero buckets, is preserved by every `record_validation`
call (increment and decay included), and is preserved by `from_dict` on any
persisted bucket data whose entries satisfy it — in particular on the
output of `to_dict` for any store satisfying the invariant. -/
theorem bucket_invariant_all_ops (p : CognitiveProfile) (idle_seconds : Nat)
    (was_validated : Bool) (project_hash : Option String) (now : ℚ) (hour : Nat)
    (store src : List IdleBucket) (data : List BucketDictEntry) :
    bucketsInv profileInit.buckets ∧
    (bucketsInv p.buckets →
      bucketsInv (record_validation p idle_seconds was_validated project_hash
        now hour).buckets) ∧
    (bucketsInv store → (∀ e ∈ data, e.dvalidated.getD 0 ≤ e.dtotal.getD 0) →
      bucketsInv (from_dict_buckets store data)) ∧
    (bucketsInv store → bucketsInv src →
      bucketsInv (from_dict_buckets store (to_dict_buckets src))) := by
  refine ⟨by decide, ?_, from_dict_buckets_inv data store, ?_⟩
  · intro hinv
    rw [record_validation_buckets]
    exact apply_decay_inv _ (bump_inv _ _ _ hinv)
  · intro hs hsrc
    refine from_dict_buckets_inv _ store hs ?_
    intro e he
    obtain ⟨b, hb, rfl⟩ := List.mem_map.mp he
    simpa using hsrc b hb

/-- C8 witness: the invariant after one validation on the fresh profile and
after a save/load round trip of the fresh store. -/
theorem bucket_invariant_all_ops_witness :
    bucketsInv (record_validation profileInit 90 true none 0 10).buckets ∧
    bucketsInv (from_dict_buckets profileInit.buckets
      (to_dict_buckets profileInit.buckets)) :=
  ⟨(bucket_invariant_all_ops profileInit 90 true none 0 10
      profileInit.buckets profileInit.buckets []).2.1 (by decide),
    (bucket_invariant_all_ops profileInit 90 true none 0 10
      profileInit.buckets profileInit.buckets []).2.2.2 (by decide) (by decide)⟩

/-- `TimerState` enum from `timer_manager.py`. -/
inductive TimerState where
  | STOPPED
  | RUNNING
  | BUFFER
  | PAUSED
  | COGNITIVE_CHECK
deriving DecidableEq, Repr

/-- The Qt signals `TimerManager` emits, as first-class events. -/
inductive TMEvent where
  | state_changed (s : TimerState)
  | time_updated (total : Int)
  | cognitive_check_needed (idle : Nat) (confidence : ℚ)
      (decision : Option ConfidenceDecision)
  | cognitive_auto_decided (was_accepted : Bool) (seconds : Nat) (confidence : ℚ)

/-- The mutable state of a `TimerManager` instance.  `total_seconds` is an
`Int` so that its non-negativity is a provable invariant rather than a
typing assumption.  The two `QTimer` objects are not modelled: each tick /
buffer-expiry handler already guards on the state that implies its timer
is active, exactly as in the source. -/
structure TimerManager where
  state : TimerState
  total_seconds : Int
  buffer_seconds : Nat
  idle_seconds : Nat
  t_limit_minutes : Nat
  cognitive_decision_callback : Option (Nat → ℚ × ConfidenceDecision)
  last_auto_decision : Option (Bool × Nat × ℚ)

/-- `TimerManager.__init__`. -/
def timerInit : TimerManager :=
  { state := .STOPPED, total_seconds := 0, buffer_seconds := 0,
    idle_seconds := 0, t_limit_minutes := 20,
    cognitive_decision_callback := none, last_auto_decision := none }

/-- `TimerManager._set_state`: change state and emit `state_changed` when
it differs. -/
def set_state (m : TimerManager) (new_state : TimerState) :
    TimerManager × List TMEvent :=
  if m.state = new_state then (m, [])
  else ({ m with state := new_state }, [.state_changed new_state])

/-- `TimerManager.set_total_seconds` (used when loading from storage). -/
def set_total_seconds (m : TimerManager) (seconds : Int) :
    TimerManager × List TMEvent :=
  let t := max 0 seconds
  ({ m with total_seconds := t }, [.time_updated t])

/-- The `t_limit_minutes` property setter: clamp to `[15, 25]`. -/
def set_t_limit_minutes (m : TimerManager) (value : Int) : TimerManager :=
  { m with t_limit_minutes := (max 15 (min 25 value)).toNat }

/-- `TimerManager.start`. -/
def start (m : TimerManager) : TimerManager × List TMEvent :=
  if m.state = .STOPPED then set_state m .RUNNING else (m, [])

/-- `TimerManager.stop`. -/
def stop (m : TimerManager) : TimerManager × List TMEvent :=
  let (m1, ev1) := set_state m .STOPPED
  ({ m1 with buffer_seconds := 0, idle_seconds := 0 }, ev1)

/-- `TimerManager.reset`: stop, then zero the total. -/
def reset (m : TimerManager) : TimerManager × List TMEvent :=
  let (m1, ev1) := stop m
  ({ m1 with total_seconds := 0 }, ev1 ++ [.time_updated 0])

/-- `TimerManager.on_activity_detected`. -/
def on_activity_detected (m : TimerManager) : TimerManager × List TMEvent :=
  match m.state with
  | .STOPPED => set_state m .RUNNING
  | .RUNNING => (m, [])
  | .BUFFER => set_state { m with buffer_seconds := 0 } .RUNNING
  | .PAUSED =>
    if m.idle_seconds ≤ m.t_limit_minutes * 60 then
      match m.cognitive_decision_callback with
      | some f =>
        let (confidence, decision) := f m.idle_seconds
        match decision with
        | .AUTO_ACCEPT =>
          let t := m.total_seconds + m.idle_seconds
          let m1 := { m with total_seconds := t,
                             last_auto_decision := some (true, m.idle_seconds, confidence),
                             idle_seconds := 0 }
          let (m2, ev2) := set_state m1 .RUNNING
          (m2, [.time_updated t,
                .cognitive_auto_decided true m.idle_seconds confidence] ++ ev2)
        | .AUTO_DISCARD =>
          let m1 := { m with last_auto_decision := some (false, m.idle_seconds, confidence),
                             idle_seconds := 0 }
          let (m2, ev2) := set_state m1 .RUNNING
          (m2, [.cognitive_auto_decided false m.idle_seconds confidence] ++ ev2)
        | .ASK_USER =>
          let (m1, ev1) := set_state m .COGNITIVE_CHECK
          (m1, ev1 ++ [.cognitive_check_needed m.idle_seconds confidence (some decision)])
      | none =>
        let (m1, ev1) := set_state m .COGNITIVE_CHECK
        (m1, ev1 ++ [.cognitive_check_needed m.idle_seconds (1/2) none])
    else
      set_state { m with idle_seconds := 0 } .RUNNING
  | .COGNITIVE_CHECK => (m, [])

/-- `TimerManager.on_activity_stopped`. -/
def on_activity_stopped (m : TimerManager) : TimerManager × List TMEvent :=
  if m.state = .RUNNING then
    let (m1, ev1) := set_state m .BUFFER
    ({ m1 with buffer_seconds := 0 }, ev1)
  else (m, [])

/-- `TimerManager.on_cognitive_response`. -/
def on_cognitive_response (m : TimerManager) (was_thinking : Bool) :
    TimerManager × List TMEvent :=
  if m.state ≠ .COGNITIVE_CHECK then (m, [])
  else
    let (m1, ev1) :=
      if was_thinking then
        let t := m.total_seconds + m.idle_seconds
        ({ m with total_seconds := t }, [TMEvent.time_updated t])
      else (m, [])
    let (m2, ev2) := set_state { m1 with idle_seconds := 0 } .RUNNING
    (m2, ev1 ++ ev2)

/-- `TimerManager.undo_last_auto_decision`: returns the new state, the
Python return value, and the emitted events. -/
def undo_last_auto_decision (m : TimerManager) :
    TimerManager × Option (Bool × Nat) × List TMEvent :=
  match m.last_auto_decision with
  | none => (m, none, [])
  | some (was_accepted, seconds, _) =>
    if was_accepted then
      let t := max 0 (m.total_seconds - seconds)
      ({ m with total_seconds := t, last_auto_decision := none },
        some (true, seconds), [.time_updated t])
    else
      let t := m.total_seconds + seconds
      ({ m with total_seconds := t, last_auto_decision := none },
        some (false, seconds), [.time_updated t])

/-- `TimerManager._on_tick`. -/
def on_tick (m : TimerManager) : TimerManager × List TMEvent :=
  match m.state with
  | .RUNNING =>
    let t := m.total_seconds + 1
    ({ m with total_seconds := t }, [.time_updated t])
  | .BUFFER =>
    let t := m.total_seconds + 1
    ({ m with total_seconds := t, buffer_seconds := m.buffer_seconds + 1 },
      [.time_updated t])
  | .PAUSED =>
    let idle := m.idle_seconds + 1
    if idle > m.t_limit_minutes * 60 then ({ m with idle_seconds := 0 }, [])
    else ({ m with idle_seconds := idle }, [])
  | _ => (m, [])

/-- `TimerManager._on_buffer_expired`. -/
def on_buffer_expired (m : TimerManager) : TimerManager × List TMEvent :=
  if m.state = .BUFFER then
    let (m1, ev1) := set_state m .PAUSED
    ({ m1 with idle_seconds := 0 }, ev1)
  else (m, [])

/-- C3: a tick in PAUSED increments the idle counter, then resets it to 0
if it exceeds `T_limit·60` seconds; the state stays PAUSED and the total
is untouched either way.  With `T_limit = 20` and idle at 1200, the next
tick (reaching 1201 > 1200) resets idle to 0, still PAUSED. -/
theorem tick_paused_behavior (m : TimerManager) (h : m.state = .PAUSED) :
    (on_tick m).1.state = .PAUSED ∧
    (on_tick m).1.total_seconds = m.total_seconds ∧
    (on_tick m).1.idle_seconds =
      (if m.idle_seconds + 1 > m.t_limit_minutes * 60 then 0
       else m.idle_seconds + 1) ∧
    (m.t_limit_minutes = 20 → m.idle_seconds = 1200 →
      (on_tick m).1.idle_seconds = 0 ∧ (on_tick m).1.state = .PAUSED) := by
  simp only [on_tick, h]
  split_ifs with hif
  · exact ⟨rfl, rfl, rfl, fun _ _ => ⟨rfl, rfl⟩⟩
  · exact ⟨rfl, rfl, rfl, fun h20 h1200 =>
      absurd (show m.idle_seconds + 1 > m.t_limit_minutes * 60 by omega) hif⟩

/-- A PAUSED manager with `T_limit = 20` and 1200 seconds of idle, about
to tick past the limit. -/
def pausedAtLimitMgr : TimerManager :=
  { state := .PAUSED, total_seconds := 0, buffer_seconds := 0,
    idle_seconds := 1200, t_limit_minutes := 20,
    cognitive_decision_callback := none, last_auto_decision := none }

/-- C3 witness: ticking `pausedAtLimitMgr` resets idle and stays PAUSED. -/
theorem tick_paused_behavior_witness :
    (on_tick pausedAtLimitMgr).1.idle_seconds = 0 ∧
    (on_tick pausedAtLimitMgr).1.state = .PAUSED :=
  (tick_paused_behavior pausedAtLimitMgr rfl).2.2.2 rfl rfl

/-- C7: resuming from PAUSED within `T_limit` with no cognitive-decision
callback configured behaves as ASK_USER: the machine moves to
COGNITIVE_CHECK and emits exactly one decision request (with the neutral
0.5 confidence and no decision object); total, idle and the undo slot are
untouched, so nothing is auto-accepted or auto-discarded. -/
theorem paused_no_callback_asks (m : TimerManager) (hs : m.state = .PAUSED)
    (hidle : m.idle_seconds ≤ m.t_limit_minutes * 60)
    (hcb : m.cognitive_decision_callback = none) :
    (on_activity_detected m).1.state = .COGNITIVE_CHECK ∧
    (on_activity_detected m).1.total_seconds = m.total_seconds ∧
    (on_activity_detected m).1.idle_seconds = m.idle_seconds ∧
    (on_activity_detected m).1.last_auto_decision = m.last_auto_decision ∧
    (on_activity_detected m).2 =
      [.state_changed .COGNITIVE_CHECK,
        .cognitive_check_needed m.idle_seconds (1/2) none] := by
  simp only [on_activity_detected, hs, hcb]
  rw [if_pos hidle]
  simp [set_state, hs]

/-- C7 witness: a PAUSED manager with no callback raises the check. -/
theorem paused_no_callback_asks_witness :
    (on_activity_detected pausedAtLimitMgr).1.state = .COGNITIVE_CHECK ∧
    (on_activity_detected pausedAtLimitMgr).2 =
      [.state_changed .COGNITIVE_CHECK,
        .cognitive_check_needed 1200 (1/2) none] :=
  ⟨(paused_no_callback_asks pausedAtLimitMgr rfl (by decide) rfl).1,
    (paused_no_callback_asks pausedAtLimitMgr rfl (by decide) rfl).2.2.2.2⟩

/-- Resuming from PAUSED when the callback answers AUTO_ACCEPT: the idle
seconds are added to the total, the undo slot is overwritten, idle resets,
and the machine runs again. -/
theorem activity_accept_eq (m : TimerManager) (f : Nat → ℚ × ConfidenceDecision)
    (c : ℚ) (hs : m.state = .PAUSED)
    (hidle : m.idle_seconds ≤ m.t_limit_minutes * 60)
    (hcb : m.cognitive_decision_callback = some f)
    (hf : f m.idle_seconds = (c, .AUTO_ACCEPT)) :
    (on_activity_detected m).1 =
      { m with total_seconds := m.total_seconds + m.idle_seconds,
               last_auto_decision := some (true, m.idle_seconds, c),
               idle_seconds := 0, state := .RUNNING } := by
  simp only [on_activity_detected, hs, hcb, hf]
  rw [if_pos hidle]
  simp [set_state]

/-- Resuming from PAUSED when the callback answers AUTO_DISCARD: the total
is untouched, the undo slot is overwritten, idle resets, and the machine
runs again. -/
theorem activity_discard_eq (m : TimerManager) (f : Nat → ℚ × ConfidenceDecision)
    (c : ℚ) (hs : m.state = .PAUSED)
    (hidle : m.idle_seconds ≤ m.t_limit_minutes * 60)
    (hcb : m.cognitive_decision_callback = some f)
    (hf : f m.idle_seconds = (c, .AUTO_DISCARD)) :
    (on_activity_detected m).1 =
      { m with last_auto_decision := some (false, m.idle_seconds, c),
               idle_seconds := 0, state := .RUNNING } := by
  simp only [on_activity_detected, hs, hcb, hf]
  rw [if_pos hidle]
  simp [set_state]

/-- Unfolding `undo_last_auto_decision` on a filled accept slot. -/
theorem undo_eq_of_accept_slot (m : TimerManager) (seconds : Nat) (c : ℚ)
    (h : m.last_auto_decision = some (true, seconds, c)) :
    undo_last_auto_decision m =
      ({ m with total_seconds := max 0 (m.total_seconds - seconds),
                last_auto_decision := none },
        some (true, seconds),
        [.time_updated (max 0 (m.total_seconds - seconds))]) := by
  simp [undo_last_auto_decision, h]

/-- Unfolding `undo_last_auto_decision` on a filled discard slot. -/
theorem undo_eq_of_discard_slot (m : TimerManager) (seconds : Nat) (c : ℚ)
    (h : m.last_auto_decision = some (false, seconds, c)) :
    undo_last_auto_decision m =
      ({ m with total_seconds := m.total_seconds + seconds,
                last_auto_decision := none },
        some (false, seconds),
        [.time_updated (m.total_seconds + seconds)]) := by
  simp [undo_last_auto_decision, h]

/-- Unfolding `undo_last_auto_decision` on an empty slot. -/
theorem undo_eq_of_empty_slot (m : TimerManager)
    (h : m.last_auto_decision = none) :
    undo_last_auto_decision m = (m, none, []) := by
  simp [undo_last_auto_decision, h]

/-- A PAUSED manager holding 100 s of total time and 50 s of idle, whose
decision source auto-discards. -/
def discardDecisionMgr : TimerManager :=
  { state := .PAUSED, total_seconds := 100, buffer_seconds := 0,
    idle_seconds := 50, t_limit_minutes := 20,
    cognitive_decision_callback := some (fun _ => (1/10, .AUTO_DISCARD)),
    last_auto_decision := none }

/-- C2 counterexample: a discard-then-undo cycle does not restore the
pre-decision total.  Undoing the auto-discard of 50 idle seconds adds
them, leaving 150 ≠ 100. -/
theorem undo_discard_cycle_not_pre_total :
    (undo_last_auto_decision
      (on_activity_detected discardDecisionMgr).1).1.total_seconds = 150 ∧
    discardDecisionMgr.total_seconds = 100 ∧ (150 : Int) ≠ 100 := by
  have h1 := activity_discard_eq discardDecisionMgr
    (fun _ => (1/10, .AUTO_DISCARD)) (1/10) rfl (by decide) rfl rfl
  rw [h1]
  rw [undo_eq_of_discard_slot _ 50 (1/10) rfl]
  exact ⟨by decide, rfl, by decide⟩

/-- C2 (amended): `undo_last_auto_decision` consumes the capacity-1 slot:
with a filled slot it returns `(was_accepted, seconds)` and clears it; an
accept-then-undo cycle restores exactly the pre-decision total, while a
discard-then-undo cycle leaves the pre-decision total plus the idle
seconds (the undo turns the discard into an accept); a second call
returns `none` and leaves the total unchanged; and the auto-decision
overwrites whatever unconsumed slot was there before without reversing
it. -/
theorem undo_last_auto_decision_semantics (m : TimerManager)
    (f : Nat → ℚ × ConfidenceDecision)
    (h0 : 0 ≤ m.total_seconds) (hs : m.state = .PAUSED)
    (hidle : m.idle_seconds ≤ m.t_limit_minutes * 60)
    (hcb : m.cognitive_decision_callback = some f) :
    (∀ c, f m.idle_seconds = (c, .AUTO_ACCEPT) →
      (on_activity_detected m).1.last_auto_decision =
        some (true, m.idle_seconds, c) ∧
      (on_activity_detected m).1.total_seconds =
        m.total_seconds + m.idle_seconds ∧
      (undo_last_auto_decision (on_activity_detected m).1).2.1 =
        some (true, m.idle_seconds) ∧
      (undo_last_auto_decision (on_activity_detected m).1).1.total_seconds =
        m.total_seconds ∧
      (undo_last_auto_decision
        (undo_last_auto_decision (on_activity_detected m).1).1).2.1 = none ∧
      (undo_last_auto_decision
        (undo_last_auto_decision (on_activity_detected m).1).1).1.total_seconds =
        m.total_seconds) ∧
    (∀ c, f m.idle_seconds = (c, .AUTO_DISCARD) →
      (on_activity_detected m).1.last_auto_decision =
        some (false, m.idle_seconds, c) ∧
      (on_activity_detected m).1.total_seconds = m.total_seconds ∧
      (undo_last_auto_decision (on_activity_detected m).1).2.1 =
        some (false, m.idle_seconds) ∧
      (undo_last_auto_decision (on_activity_detected m).1).1.total_seconds =
        m.total_seconds + m.idle_seconds ∧
      (undo_last_auto_decision
        (undo_last_auto_decision (on_activity_detected m).1).1).2.1 = none ∧
      (undo_last_auto_decision
        (undo_last_auto_decision (on_activity_detected m).1).1).1.total_seconds =
        m.total_seconds + m.idle_seconds) := by
  constructor
  · intro c hf
    rw [activity_accept_eq m f c hs hidle hcb hf]
    rw [undo_eq_of_accept_slot _ m.idle_seconds c rfl]
    have harith :
        max 0 (m.total_seconds + (m.idle_seconds : Int) - (m.idle_seconds : Int)) =
          m.total_seconds := by
      rw [add_sub_cancel_right]
      exact max_eq_right h0
    refine ⟨rfl, rfl, rfl, harith, ?_, ?_⟩
    · rw [undo_eq_of_empty_slot _ rfl]
    · rw [undo_eq_of_empty_slot _ rfl]
      exact harith
  · intro c hf
    rw [activity_discard_eq m f c hs hidle hcb hf]
    rw [undo_eq_of_discard_slot _ m.idle_seconds c rfl]
    refine ⟨rfl, rfl, rfl, rfl, ?_, ?_⟩
    · rw [undo_eq_of_empty_slot _ rfl]
    · rw [undo_eq_of_empty_slot _ rfl]

/-- A PAUSED manager with a stale unconsumed slot whose decision source
auto-accepts, to exercise the overwrite-then-undo path. -/
def acceptDecisionMgr : TimerManager :=
  { state := .PAUSED, total_seconds := 100, buffer_seconds := 0,
    idle_seconds := 50, t_limit_minutes := 20,
    cognitive_decision_callback := some (fun _ => (9/10, .AUTO_ACCEPT)),
    last_auto_decision := some (false, 7, 1/2) }

/-- C2 witness: accept-then-undo on `acceptDecisionMgr` (overwriting its
stale slot) returns `(true, 50)` and restores the total to 100. -/
theorem undo_last_auto_decision_semantics_witness :
    (undo_last_auto_decision
      (on_activity_detected acceptDecisionMgr).1).1.total_seconds = 100 ∧
    (undo_last_auto_decision
      (on_activity_detected acceptDecisionMgr).1).2.1 = some (true, 50) :=
  ⟨((undo_last_auto_decision_semantics acceptDecisionMgr _ (by decide) rfl
      (by decide) rfl).1 (9/10) rfl).2.2.2.1,
    ((undo_last_auto_decision_semantics acceptDecisionMgr _ (by decide) rfl
      (by decide) rfl).1 (9/10) rfl).2.2.1⟩

/-- Every externally drivable operation of the timer state machine. -/
inductive TMOp where
  | tick
  | bufferExpired
  | activityDetected
  | activityStopped
  | cognitiveResponse (was_thinking : Bool)
  | undo
  | setTotal (seconds : Int)
  | setTLimit (value : Int)
  | startOp
  | stopOp
  | resetOp

/-- Apply one operation, discarding emitted events and return values. -/
def applyOp (op : TMOp) (m : TimerManager) : TimerManager :=
  match op with
  | .tick => (on_tick m).1
  | .bufferExpired => (on_buffer_expired m).1
  | .activityDetected => (on_activity_detected m).1
  | .activityStopped => (on_activity_stopped m).1
  | .cognitiveResponse b => (on_cognitive_response m b).1
  | .undo => (undo_last_auto_decision m).1
  | .setTotal s => (set_total_seconds m s).1
  | .setTLimit v => set_t_limit_minutes m v
  | .startOp => (start m).1
  | .stopOp => (stop m).1
  | .resetOp => (reset m).1

/-- C10: `total_seconds` never goes negative — every operation of the
state machine preserves `0 ≤ total_seconds`; moreover `set_total_seconds`
floors its argument at 0, `reset` zeroes the total, and a tick either
leaves the total unchanged or adds exactly one second. -/
theorem total_seconds_nonneg_invariant (op : TMOp) (m : TimerManager)
    (s : Int) (h0 : 0 ≤ m.total_seconds) :
    0 ≤ (applyOp op m).total_seconds ∧
    (applyOp (.setTotal s) m).total_seconds = max 0 s ∧
    (applyOp .resetOp m).total_seconds = 0 ∧
    ((applyOp .tick m).total_seconds = m.total_seconds ∨
      (applyOp .tick m).total_seconds = m.total_seconds + 1) := by
  obtain ⟨st, tot, buf, idle, tl, cb, las⟩ := m
  simp only [applyOp] at h0 ⊢
  refine ⟨?_, rfl, rfl, ?_⟩
  · cases op with
    | tick =>
      cases st <;>
        first
          | exact h0
          | exact add_nonneg h0 (by norm_num)
          | (simp only [on_tick]; split_ifs <;> exact h0)
    | bufferExpired =>
      simp only [on_buffer_expired, set_state]
      split_ifs <;> exact h0
    | activityDetected =>
      cases st with
      | STOPPED =>
        simp only [on_activity_detected, set_state]
        split_ifs <;> exact h0
      | RUNNING => exact h0
      | BUFFER =>
        simp only [on_activity_detected, set_state]
        split_ifs <;> exact h0
      | PAUSED =>
        simp only [on_activity_detected]
        split_ifs with hlim
        · cases cb with
          | none =>
            simp only [set_state]
            split_ifs <;> exact h0
          | some f =>
            rcases hfd : f idle with ⟨c, d⟩
            cases d <;> simp only [hfd, set_state] <;> split_ifs <;>
              first
                | exact h0
                | exact add_nonneg h0 (Int.natCast_nonneg idle)
        · simp only [set_state]
          split_ifs <;> exact h0
      | COGNITIVE_CHECK => exact h0
    | activityStopped =>
      simp only [on_activity_stopped, set_state]
      split_ifs <;> exact h0
    | cognitiveResponse b =>
      simp only [on_cognitive_response, set_state]
      split_ifs <;>
        first
          | exact h0
          | exact add_nonneg h0 (Int.natCast_nonneg idle)
    | undo =>
      rcases las with _ | ⟨b, secs, c⟩
      · exact h0
      · cases b <;> simp only [undo_last_auto_decision]
        · exact add_nonneg h0 (Int.natCast_nonneg secs)
        · exact le_max_left 0 _
    | setTotal s2 => exact le_max_left 0 _
    | setTLimit v => exact h0
    | startOp =>
      simp only [start, set_state]
      split_ifs <;> exact h0
    | stopOp =>
      simp only [stop, set_state]
      split_ifs <;> exact h0
    | resetOp => norm_num [reset, stop, set_state]
  · cases st <;>
      first
        | exact Or.inl rfl
        | exact Or.inr rfl
        | (simp only [on_tick]; split_ifs <;> exact Or.inl rfl)

/-- C10 witness: undoing the accept slot of a manager holding less total
time than the slot's seconds floors at 0 instead of going negative. -/
theorem total_seconds_nonneg_invariant_witness :
    0 ≤ (applyOp .undo
      { state := .RUNNING, total_seconds := 3, buffer_seconds := 0,
        idle_seconds := 0, t_limit_minutes := 20,
        cognitive_decision_callback := none,
        last_auto_decision := some (true, 50, 9/10) }).total_seconds :=
  (total_seconds_nonneg_invariant .undo _ 0 (by decide)).1

end KritaWorkTimer
